import Mathlib

/-!
Verification of the `coreaudio-rs` audio-unit façade (`src/audio_unit/mod.rs`)
against its natural-language specification.

The native Core Audio layer is foreign OS code; every native entry point the
façade calls is modelled as an explicit oracle argument, and each façade
operation additionally returns a record (or a trace) of the native calls it
performed, so that theorems can speak about what was passed across the
foreign boundary.  Machine integers are modelled as `Nat` (the wrapper never
performs arithmetic on them), `f64` values as their opaque bit patterns
(`Nat`), and raw pointers as abstract `Nat` identities, with `none` standing
for the null pointer.
-/

namespace CoreAudio

/-- A native OS status code (`OSStatus`); `0` means success. -/
abbrev OSStatus := Int

/-- The error taxonomy of the wrapper.

Modelled from the spec: `src/error.rs` is not under `src/`; spec §7 gives the
taxonomy `NoKnownSubtype`, `NoMatchingDefaultAudioUnitFound`,
`UnsupportedStreamFormat`, `Native(code)` (any other non-zero native status,
carrying the raw code). -/
inductive Error where
  | NoKnownSubtype
  | NoMatchingDefaultAudioUnitFound
  | UnsupportedStreamFormat
  | Native (code : OSStatus)
deriving Repr, DecidableEq

/-- `Error::from_os_status`.

Modelled from the spec: `src/error.rs` is not under `src/`; spec §4.1 says a
single fallible-result conversion maps a native integer status code to either
success or a specific error variant, and §7 says `Native(code)` carries any
other non-zero native status. -/
def Error.from_os_status (status : OSStatus) : Except Error Unit :=
  if status = 0 then .ok () else .error (.Native status)

/-- The `Scope` enumeration of `mod.rs` with its `#[repr]` discriminants. -/
inductive Scope where
  | Global
  | Input
  | Output
  | Group
  | Part
  | Note
  | Layer
  | LayerItem
deriving Repr, DecidableEq

/-- `scope as c_uint`: the discriminant value written in the source. -/
def Scope.toNat : Scope → Nat
  | .Global => 0
  | .Input => 1
  | .Output => 2
  | .Group => 3
  | .Part => 4
  | .Note => 5
  | .Layer => 6
  | .LayerItem => 7

/-- The `Element` enumeration of `mod.rs`: `Output = 0`, `Input = 1`. -/
inductive Element where
  | Output
  | Input
deriving Repr, DecidableEq

/-- `elem as c_uint`: the discriminant value written in the source. -/
def Element.toNat : Element → Nat
  | .Output => 0
  | .Input => 1

/-! ## The generic property accessors (`set_property` / `get_property`) -/

/-- The arguments one call to the native `AudioUnitSetProperty` receives from
the wrapper.  `data = none` models the null data pointer. -/
structure SetCall (α : Type) where
  id : Nat
  scope : Nat
  elem : Nat
  data : Option α
  size : Nat
deriving Repr, DecidableEq

/-- The arguments one call to the native `AudioUnitGetProperty` receives from
the wrapper: `storageIn` is the content of the caller-allocated storage at
the moment of the call, `sizeIn` the initial value of the in/out size
parameter. -/
structure GetCall (α : Type) where
  id : Nat
  scope : Nat
  elem : Nat
  storageIn : α
  sizeIn : Nat
deriving Repr, DecidableEq

/-- What the native `AudioUnitGetProperty` leaves behind: its status code,
the content `written` of the caller's storage after the call, and the value
`outSize` it stored in the in/out size parameter. -/
structure GetReply (α : Type) where
  status : OSStatus
  written : α
  outSize : Nat
deriving Repr, DecidableEq

/-- The free function `set_property<T>` of `mod.rs` (lines 352-371).

`sizeOfT` is `::std::mem::size_of::<T>()`; the data pointer and size are
`(ptr data, sizeOfT)` when `maybe_data` is present and `(null, 0)` when it is
absent; the status returned by the oracle `native` goes through
`Error::from_os_status`.  Returns the call record alongside the result. -/
def set_property {α : Type} (sizeOfT : Nat) (native : SetCall α → OSStatus)
    (maybe_data : Option α) (id : Nat) (scope : Scope) (elem : Element) :
    SetCall α × Except Error Unit :=
  let pair : Option α × Nat :=
    match maybe_data with
    | some d => (some d, sizeOfT)
    | none => (none, 0)
  let call : SetCall α := ⟨id, scope.toNat, elem.toNat, pair.1, pair.2⟩
  (call, Error.from_os_status (native call))

/-- The free function `get_property<T>` of `mod.rs` (lines 384-404).

The source allocates the storage with `MaybeUninit::<T>::uninit()`: the
storage is *uninitialized*, so its content at the moment of the native call
is an arbitrary value, passed here as the explicit parameter
`uninitStorage`.  The in/out size parameter starts at `sizeOfT`
(`::std::mem::size_of::<T>() as u32`); a non-zero status becomes an error via
`Error::from_os_status`, and on success the value now sitting in the storage
(`(native call).written`) is returned (`assume_init`). -/
def get_property {α : Type} (sizeOfT : Nat) (native : GetCall α → GetReply α)
    (uninitStorage : α) (id : Nat) (scope : Scope) (elem : Element) :
    GetCall α × Except Error α :=
  let call : GetCall α := ⟨id, scope.toNat, elem.toNat, uninitStorage, sizeOfT⟩
  let r := native call
  (call, (Error.from_os_status r.status).map (fun _ => r.written))

/-! ## Construction of the façade (`new` / `new_with_flags`) -/

/-- The requested logical audio-unit type.

Modelled from the spec: `src/audio_unit/types.rs` is not under `src/`.  The
façade consumes a type only through `as_u32` (its category code) and
`as_subtype_u32` (its optional native subtype mapping); spec §4.5 says
construction "fails with no known subtype if the requested type cannot be
mapped", so a type either carries a native subtype or does not. -/
inductive AUType where
  | mapped (category : Nat) (subtype : Nat)
  | unmapped (category : Nat)
deriving Repr, DecidableEq

/-- The category code of the requested type (`au_type.as_u32()`). -/
def AUType.as_u32 : AUType → Nat
  | .mapped c _ => c
  | .unmapped c => c

/-- The optional native subtype of the requested type
(`au_type.as_subtype_u32()`). -/
def AUType.as_subtype_u32 : AUType → Option Nat
  | .mapped _ s => some s
  | .unmapped _ => none

/-- `sys::kAudioUnitManufacturer_Apple` (`b"appl"` as a big-endian u32): the
only manufacturer identifier the façade ever uses. -/
def kAudioUnitManufacturer_Apple : Nat := 1634758764

/-- `sys::AudioComponentDescription`, as built at lines 136-142 of
`mod.rs`. -/
structure AudioComponentDescription where
  componentType : Nat
  componentSubType : Nat
  componentManufacturer : Nat
  componentFlags : Nat
  componentFlagsMask : Nat
deriving Repr, DecidableEq

/-- The native environment `new_with_flags` runs against: component
discovery (`AudioComponentFindNext`, `none` modelling the null pointer),
instantiation (`AudioComponentInstanceNew`, a status together with the
instance handle it writes), and `AudioUnitInitialize` (a status). -/
structure NewEnv where
  findNext : AudioComponentDescription → Option Nat
  instanceNewStatus : Nat → OSStatus
  instanceNewHandle : Nat → Nat
  unitInitStatus : Nat → OSStatus

/-- One native call performed during construction. -/
inductive NewCall where
  | findNext (desc : AudioComponentDescription)
  | instanceNew (component : Nat)
  | unitInit (inst : Nat)
deriving Repr, DecidableEq

/-- The state of `struct AudioUnit` (`mod.rs` lines 78-88): the native
instance handle, an optional raw pointer to a render-callback wrapper, and an
optional input callback owning a buffer-list pointer and a wrapper
pointer.  Pointers are modelled as abstract `Nat` identities. -/
structure InputCallback where
  buffer_list : Nat
  callback : Nat
deriving Repr, DecidableEq

structure AudioUnitState where
  instanceH : Nat
  maybe_render_callback : Option Nat
  maybe_input_callback : Option InputCallback
deriving Repr, DecidableEq

/-- `AudioUnit::new_with_flags` (`mod.rs` lines 125-173), returning the list
of native calls performed alongside the result.

If the requested type has no subtype mapping it fails with
`NoKnownSubtype` before any native call.  Otherwise it builds the
`AudioComponentDescription` from the category, subtype and the Apple
manufacturer identifier plus the given flags and mask, asks discovery for a
matching component (null → `NoMatchingDefaultAudioUnitFound`), instantiates
it and initializes it (each non-zero status routed through
`Error::from_os_status`), and on success returns the façade state with no
callbacks registered. -/
def new_with_flags (env : NewEnv) (ty : AUType) (flags mask : Nat) :
    List NewCall × Except Error AudioUnitState :=
  match ty.as_subtype_u32 with
  | none => ([], .error .NoKnownSubtype)
  | some sub =>
    let desc : AudioComponentDescription :=
      ⟨ty.as_u32, sub, kAudioUnitManufacturer_Apple, flags, mask⟩
    match env.findNext desc with
    | none => ([NewCall.findNext desc], .error .NoMatchingDefaultAudioUnitFound)
    | some component =>
      let t1 := [NewCall.findNext desc, NewCall.instanceNew component]
      match Error.from_os_status (env.instanceNewStatus component) with
      | .error e => (t1, .error e)
      | .ok _ =>
        let inst := env.instanceNewHandle component
        let t2 := t1 ++ [NewCall.unitInit inst]
        match Error.from_os_status (env.unitInitStatus inst) with
        | .error e => (t2, .error e)
        | .ok _ => (t2, .ok ⟨inst, none, none⟩)

/-- `AudioUnit::new` (`mod.rs` lines 117-121): delegates to
`new_with_flags` with flags `0` and mask `0`. -/
def new (env : NewEnv) (ty : AUType) : List NewCall × Except Error AudioUnitState :=
  new_with_flags env ty 0 0

/-! ## Teardown (`impl Drop for AudioUnit`, lines 313-331) -/

/-- One step of the teardown sequence, as observable at the native /
allocator boundary. -/
inductive DropStep where
  | stopUnit
  | uninitUnit
  | freeRenderWrapper
  | freeInputWrapper
  | freeInputBufferList
  | disposeInstance
deriving Repr, DecidableEq

/-- `AudioUnit::free_render_callback`.

Modelled from the spec: `src/audio_unit/render_callback.rs` is not under
`src/`; spec §4.5 says teardown must "release any active render/input
callback resources" and §4.4 that a registration owns a heap-allocated
closure wrapper released when the registration ends.  If a render callback
is registered its wrapper is released and the slot cleared; otherwise
nothing happens. -/
def free_render_callback (au : AudioUnitState) : List DropStep × AudioUnitState :=
  match au.maybe_render_callback with
  | none => ([], au)
  | some _ => ([DropStep.freeRenderWrapper], { au with maybe_render_callback := none })

/-- `AudioUnit::free_input_callback`.

Modelled from the spec: `src/audio_unit/render_callback.rs` is not under
`src/`; spec §4.4 says an input registration owns the closure wrapper and an
owned native buffer-list allocation, both released when the registration
ends ("releasing the wrapper and (for input) the buffer-list allocation").
If an input callback is registered its wrapper and buffer list are released
and the slot cleared; otherwise nothing happens. -/
def free_input_callback (au : AudioUnitState) : List DropStep × AudioUnitState :=
  match au.maybe_input_callback with
  | none => ([], au)
  | some _ =>
    ([DropStep.freeInputWrapper, DropStep.freeInputBufferList],
     { au with maybe_input_callback := none })

/-- The sequence of teardown steps `drop` performs for a given façade state:
stop, uninitialize, free the render callback, free the input callback,
dispose the component instance (`mod.rs` lines 313-331). -/
def dropTrace (au : AudioUnitState) : List DropStep :=
  let (t1, au1) := free_render_callback au
  let (t2, _au2) := free_input_callback au1
  [DropStep.stopUnit, DropStep.uninitUnit] ++ t1 ++ t2 ++ [DropStep.disposeInstance]

/-- `drop` itself: every native teardown call's status is obtained from the
environment `env` and discarded (`.ok()` in the source); the function is
total — it always returns the full list of performed steps paired with the
statuses it ignored, and never propagates an error or panics. -/
def drop (env : DropStep → OSStatus) (au : AudioUnitState) :
    List (DropStep × OSStatus) :=
  (dropTrace au).map (fun s => (s, env s))

/-! ## Stream format model -/

/-- A supported sample format: float or signed integer at the bit depths the
model can represent.

Modelled from the spec: `src/audio_unit/sample_format.rs` is not under
`src/`; spec §3 describes the sample format as "float/integer, bit depth"
and §2 as "rate, channels, bit depth, interleaving, float/int". -/
inductive SampleFormat where
  | F32
  | I32
  | I16
  | I8
deriving Repr, DecidableEq

/-- The size in bytes of one sample of the format. -/
def SampleFormat.size_in_bytes : SampleFormat → Nat
  | .F32 => 4
  | .I32 => 4
  | .I16 => 2
  | .I8 => 1

/-- `sys::AudioStreamBasicDescription`: the fixed-size native binary
descriptor, fields exactly as listed in spec §6 — sample rate (an `f64`,
modelled as its opaque bit pattern since the wrapper copies it verbatim),
4-byte format identifier, format-flags bitfield, bytes-per-packet,
frames-per-packet, bytes-per-frame, channels-per-frame, bits-per-channel and
reserved padding. -/
structure AudioStreamBasicDescription where
  mSampleRate : Nat
  mFormatID : Nat
  mFormatFlags : Nat
  mBytesPerPacket : Nat
  mFramesPerPacket : Nat
  mBytesPerFrame : Nat
  mChannelsPerFrame : Nat
  mBitsPerChannel : Nat
  mReserved : Nat
deriving Repr, DecidableEq

/-- `sys::kAudioFormatLinearPCM` (`b"lpcm"` as a big-endian u32). -/
def kAudioFormatLinearPCM : Nat := 1819304813

/-- `sys::kAudioFormatFlagIsFloat`. -/
def kAudioFormatFlagIsFloat : Nat := 1

/-- `sys::kAudioFormatFlagIsSignedInteger`. -/
def kAudioFormatFlagIsSignedInteger : Nat := 4

/-- `sys::kAudioFormatFlagIsPacked`. -/
def kAudioFormatFlagIsPacked : Nat := 8

/-- `sys::kAudioFormatFlagIsNonInterleaved`. -/
def kAudioFormatFlagIsNonInterleaved : Nat := 32

/-- The typed stream format.

Modelled from the spec: `src/audio_unit/stream_format.rs` is not under
`src/`; spec §3 gives the fields — sample rate (`f64`, Hz, modelled as its
opaque bit pattern), channel count, sample format, and the
interleaved/non-interleaved flag. -/
structure StreamFormat where
  sample_rate : Nat
  sample_format : SampleFormat
  channels : Nat
  interleaved : Bool
deriving Repr, DecidableEq

/-- The format-flags word a stream format is written out with: the
float/signed-integer flag of its sample format, packed, and the
non-interleaved flag when it is not interleaved. -/
def StreamFormat.flagsWord (f : StreamFormat) : Nat :=
  (match f.sample_format with
   | .F32 => kAudioFormatFlagIsFloat
   | _ => kAudioFormatFlagIsSignedInteger)
  + kAudioFormatFlagIsPacked
  + (if f.interleaved then 0 else kAudioFormatFlagIsNonInterleaved)

/-- `StreamFormat::to_asbd`.

Modelled from the spec: `src/audio_unit/stream_format.rs` is not under
`src/`; spec §4.2 says the conversion is a pure, total function that "must
compute byte-per-frame and byte-per-packet fields consistently with channel
count, bit depth, and interleaving flag": an interleaved frame holds one
sample per channel, a non-interleaved buffer one sample per frame, and one
packet holds one frame of linear PCM. -/
def StreamFormat.to_asbd (f : StreamFormat) : AudioStreamBasicDescription :=
  let bytesPerSample := f.sample_format.size_in_bytes
  let bytesPerFrame := if f.interleaved then f.channels * bytesPerSample else bytesPerSample
  { mSampleRate := f.sample_rate
    mFormatID := kAudioFormatLinearPCM
    mFormatFlags := f.flagsWord
    mBytesPerPacket := bytesPerFrame
    mFramesPerPacket := 1
    mBytesPerFrame := bytesPerFrame
    mChannelsPerFrame := f.channels
    mBitsPerChannel := bytesPerSample * 8
    mReserved := 0 }

/-- `StreamFormat::from_asbd`.

Modelled from the spec: `src/audio_unit/stream_format.rs` is not under
`src/`; spec §4.2 says it "fails with a malformed/unsupported format error
when the descriptor encodes a sample layout outside the supported set (e.g.,
bit depths or format flag combinations the model cannot represent);
otherwise returns the typed StreamFormat".  A descriptor is supported when
its format identifier is linear PCM and its flag word and bit depth are
exactly those some supported sample format writes out. -/
def StreamFormat.from_asbd (asbd : AudioStreamBasicDescription) :
    Except Error StreamFormat :=
  if asbd.mFormatID ≠ kAudioFormatLinearPCM then .error .UnsupportedStreamFormat
  else
    let interleaved := ! asbd.mFormatFlags.testBit 5
    let coreFlags := asbd.mFormatFlags % 32
    let fmt : Option SampleFormat :=
      if coreFlags = kAudioFormatFlagIsFloat + kAudioFormatFlagIsPacked
          ∧ asbd.mBitsPerChannel = 32 then some .F32
      else if coreFlags = kAudioFormatFlagIsSignedInteger + kAudioFormatFlagIsPacked then
        if asbd.mBitsPerChannel = 32 then some .I32
        else if asbd.mBitsPerChannel = 16 then some .I16
        else if asbd.mBitsPerChannel = 8 then some .I8
        else none
      else none
    match fmt with
    | none => .error .UnsupportedStreamFormat
    | some sf =>
      .ok { sample_rate := asbd.mSampleRate
            sample_format := sf
            channels := asbd.mChannelsPerFrame
            interleaved := interleaved }

/-! ## The specialized property accessors of the façade -/

/-- `sys::kAudioUnitProperty_SampleRate`. -/
def kAudioUnitProperty_SampleRate : Nat := 2

/-- `sys::kAudioUnitProperty_StreamFormat`. -/
def kAudioUnitProperty_StreamFormat : Nat := 8

/-- `size_of::<sys::AudioStreamBasicDescription>()`: one `f64` and eight
4-byte words. -/
def sizeOfASBD : Nat := 40

/-- `size_of::<f64>()`. -/
def sizeOfF64 : Nat := 8

/-- `AudioUnit::set_stream_format` (`mod.rs` lines 281-289): converts the
format to its native descriptor and sets the stream-format property at the
given scope and `Element::Output`. -/
def AudioUnitState.set_stream_format
    (native : SetCall AudioStreamBasicDescription → OSStatus)
    (f : StreamFormat) (scope : Scope) :
    SetCall AudioStreamBasicDescription × Except Error Unit :=
  let id := kAudioUnitProperty_StreamFormat
  let asbd := f.to_asbd
  set_property sizeOfASBD native (some asbd) id scope Element.Output

/-- `AudioUnit::stream_format` (`mod.rs` lines 292-296): reads the
stream-format property at the given scope and `Element::Output` and decodes
the descriptor. -/
def AudioUnitState.stream_format
    (native : GetCall AudioStreamBasicDescription → GetReply AudioStreamBasicDescription)
    (uninitStorage : AudioStreamBasicDescription) (scope : Scope) :
    GetCall AudioStreamBasicDescription × Except Error StreamFormat :=
  let id := kAudioUnitProperty_StreamFormat
  let (call, res) := get_property sizeOfASBD native uninitStorage id scope Element.Output
  (call, res.bind StreamFormat.from_asbd)

/-- `AudioUnit::set_sample_rate` (`mod.rs` lines 256-259): sets the
sample-rate property at `Scope::Input`, `Element::Output` with the given
`f64` rate (modelled as its bit pattern). -/
def AudioUnitState.set_sample_rate (native : SetCall Nat → OSStatus)
    (sample_rate : Nat) : SetCall Nat × Except Error Unit :=
  let id := kAudioUnitProperty_SampleRate
  set_property sizeOfF64 native (some sample_rate) id Scope.Input Element.Output

/-- `AudioUnit::sample_rate` (`mod.rs` lines 262-265): reads the sample-rate
property at `Scope::Input`, `Element::Output`. -/
def AudioUnitState.sample_rate (native : GetCall Nat → GetReply Nat)
    (uninitStorage : Nat) : GetCall Nat × Except Error Nat :=
  let id := kAudioUnitProperty_SampleRate
  get_property sizeOfF64 native uninitStorage id Scope.Input Element.Output

/-! ## A native property cell, for the clear-to-default contract -/

/-- One native property's stored state: whether the property defines a
default, that default, and its current value (all values as byte lists).

Modelled from the spec: the native property table is foreign OS code; spec
§4.3 says a null pointer and zero size are interpreted by the native layer
as "clear to default — this clearing only succeeds for properties that
define a default; otherwise it fails". -/
structure PropCell where
  hasDefault : Bool
  defaultVal : List Nat
  current : List Nat
deriving Repr, DecidableEq

/-- The native `AudioUnitSetProperty` against one property cell.

Modelled from the spec (§4.3): data present → the value is stored and the
call succeeds; data null → the cell resets to its default when it has one
(status 0), and fails with the non-zero status `errCode` when it does
not. -/
def nativeSetCell (errCode : OSStatus) (cell : PropCell)
    (call : SetCall (List Nat)) : OSStatus × PropCell :=
  match call.data with
  | some bytes => (0, { cell with current := bytes })
  | none =>
    if cell.hasDefault then (0, { cell with current := cell.defaultVal })
    else (errCode, cell)

/-- The native `AudioUnitGetProperty` against one property cell.

Modelled from the spec (§4.3): the native layer fills the caller's storage
with the property's current value and reports success. -/
def nativeGetCell (cell : PropCell) (_call : GetCall (List Nat)) :
    GetReply (List Nat) :=
  ⟨0, cell.current, cell.current.length⟩

/-- Clearing a property through the wrapper and then reading it back:
`set_property` with no data against the cell, followed by `get_property`
against the cell the native layer left behind.  Returns the result of the
clear and the result of the read. -/
def clear_then_get (errCode : OSStatus) (cell : PropCell)
    (id : Nat) (scope : Scope) (elem : Element) :
    Except Error Unit × Except Error (List Nat) :=
  let setter : SetCall (List Nat) → OSStatus := fun c => (nativeSetCell errCode cell c).1
  let (call, setRes) := set_property 0 setter none id scope elem
  let cell1 := (nativeSetCell errCode cell call).2
  let (_, getRes) :=
    get_property cell1.current.length (nativeGetCell cell1)
      (List.replicate cell1.current.length 0) id scope elem
  (setRes, getRes)

/-! ## Callback registration slots -/

/-- `AudioUnit::set_render_callback`, at the level of the registration
slots.

Modelled from the spec: `src/audio_unit/render_callback.rs` is not under
`src/`; spec §4.4 says registering an output render callback installs a
wrapper in the unit's single output render-callback slot, replacing any
previous registration. -/
def set_render_callback (au : AudioUnitState) (wrapper : Nat) : AudioUnitState :=
  { au with maybe_render_callback := some wrapper }

/-- `AudioUnit::set_input_callback`, at the level of the registration
slots.

Modelled from the spec: `src/audio_unit/render_callback.rs` is not under
`src/`; spec §4.4 says registering an input callback installs a wrapper
together with an owned buffer-list allocation in the unit's single input
callback slot, replacing any previous registration. -/
def set_input_callback (au : AudioUnitState) (buffer_list wrapper : Nat) :
    AudioUnitState :=
  { au with maybe_input_callback := some ⟨buffer_list, wrapper⟩ }

/-- The number of active output render-callback registrations of a façade
state. -/
def renderRegistrations (au : AudioUnitState) : Nat :=
  match au.maybe_render_callback with
  | none => 0
  | some _ => 1

/-- The number of active input-callback registrations of a façade state. -/
def inputRegistrations (au : AudioUnitState) : Nat :=
  match au.maybe_input_callback with
  | none => 0
  | some _ => 1

/-! ## Helper lemmas and concrete test fixtures -/

/-- Any façade state carries at most one render-callback registration. -/
theorem renderRegistrations_le_one (au : AudioUnitState) :
    renderRegistrations au ≤ 1 := by
  unfold renderRegistrations
  cases au.maybe_render_callback <;> simp

/-- Any façade state carries at most one input-callback registration. -/
theorem inputRegistrations_le_one (au : AudioUnitState) :
    inputRegistrations au ≤ 1 := by
  unfold inputRegistrations
  cases au.maybe_input_callback <;> simp

/-- A concrete construction environment in which every native call
succeeds: discovery finds component `7`, instantiation writes handle `42`,
and every status is `0`. -/
def envAllOk : NewEnv :=
  ⟨fun _ => some 7, fun _ => 0, fun _ => 42, fun _ => 0⟩

/-- A native getter that reports success and leaves the caller's storage
untouched (it writes nothing). -/
def echoGetter : GetCall Nat → GetReply Nat :=
  fun c => ⟨0, c.storageIn, c.sizeIn⟩

/-! ## Claims -/

/-- Claim C2: for every StreamFormat value (every sample format of the model
is in the supported set), converting to the native binary descriptor and
back returns the format unchanged:
`from_native_descriptor(to_native_descriptor(f)) = ok f`. -/
theorem claim_C2 (f : StreamFormat) :
    StreamFormat.from_asbd f.to_asbd = .ok f := by
  obtain ⟨r, sf, ch, il⟩ := f
  cases sf <;> cases il <;>
    simp [StreamFormat.to_asbd, StreamFormat.from_asbd, StreamFormat.flagsWord,
      kAudioFormatLinearPCM, kAudioFormatFlagIsFloat, kAudioFormatFlagIsSignedInteger,
      kAudioFormatFlagIsPacked, kAudioFormatFlagIsNonInterleaved, SampleFormat.size_in_bytes,
      show Nat.testBit 9 5 = false from rfl, show Nat.testBit 41 5 = true from rfl,
      show Nat.testBit 12 5 = false from rfl, show Nat.testBit 44 5 = true from rfl]

/-- Claim C3: teardown of an `AudioUnit` performs exactly stop, then
uninitialize, then release of the registered render-callback and
input-callback resources (each only when registered), then dispose of the
native component instance; the sequence of calls performed is the same for
every assignment of native statuses (every error is discarded, no failure
is surfaced), and `drop` is a total function (it never panics). -/
theorem claim_C3 (env env' : DropStep → OSStatus) (au : AudioUnitState) :
    (drop env au).map Prod.fst = dropTrace au
    ∧ (drop env au).map Prod.fst = (drop env' au).map Prod.fst
    ∧ dropTrace au =
        [DropStep.stopUnit, DropStep.uninitUnit]
        ++ (if au.maybe_render_callback.isSome then [DropStep.freeRenderWrapper] else [])
        ++ (if au.maybe_input_callback.isSome then
              [DropStep.freeInputWrapper, DropStep.freeInputBufferList] else [])
        ++ [DropStep.disposeInstance] := by
  refine ⟨?_, ?_, ?_⟩
  · show ((dropTrace au).map fun s => (s, env s)).map Prod.fst = dropTrace au
    exact (List.map_map _ _ _).trans (List.map_id _)
  · have h1 : ((dropTrace au).map fun s => (s, env s)).map Prod.fst = dropTrace au :=
      (List.map_map _ _ _).trans (List.map_id _)
    have h2 : ((dropTrace au).map fun s => (s, env' s)).map Prod.fst = dropTrace au :=
      (List.map_map _ _ _).trans (List.map_id _)
    exact h1.trans h2.symm
  · obtain ⟨i, rc, ic⟩ := au
    cases rc <;> cases ic <;> rfl

/-- Claim C4: when the requested type has no native subtype mapping,
`new_with_flags` returns the `NoKnownSubtype` error and performs no native
call at all (empty call trace). -/
theorem claim_C4 (env : NewEnv) (ty : AUType) (flags mask : Nat)
    (h : ty.as_subtype_u32 = none) :
    new_with_flags env ty flags mask = ([], .error .NoKnownSubtype) := by
  unfold new_with_flags
  rw [h]

/-- Witness for C4 at the concrete unmapped type with category `5`. -/
theorem claim_C4_witness :
    (AUType.unmapped 5).as_subtype_u32 = none
    ∧ new_with_flags envAllOk (AUType.unmapped 5) 0 0 = ([], .error .NoKnownSubtype) :=
  ⟨rfl, claim_C4 envAllOk (AUType.unmapped 5) 0 0 rfl⟩

/-- Claim C8: every façade state holds at most one output render-callback
registration and at most one input-callback registration, and each
slot-touching operation (registering either callback, freeing either
callback, and construction) yields a state that again satisfies the
invariant. -/
theorem claim_C8 (au : AudioUnitState) (w b cw inst : Nat) :
    (renderRegistrations au ≤ 1 ∧ inputRegistrations au ≤ 1)
    ∧ (renderRegistrations (set_render_callback au w) ≤ 1
       ∧ inputRegistrations (set_render_callback au w) ≤ 1)
    ∧ (renderRegistrations (set_input_callback au b cw) ≤ 1
       ∧ inputRegistrations (set_input_callback au b cw) ≤ 1)
    ∧ (renderRegistrations (free_render_callback au).2 ≤ 1
       ∧ inputRegistrations (free_render_callback au).2 ≤ 1)
    ∧ (renderRegistrations (free_input_callback au).2 ≤ 1
       ∧ inputRegistrations (free_input_callback au).2 ≤ 1)
    ∧ (renderRegistrations ⟨inst, none, none⟩ = 0
       ∧ inputRegistrations ⟨inst, none, none⟩ = 0) :=
  ⟨⟨renderRegistrations_le_one _, inputRegistrations_le_one _⟩,
   ⟨renderRegistrations_le_one _, inputRegistrations_le_one _⟩,
   ⟨renderRegistrations_le_one _, inputRegistrations_le_one _⟩,
   ⟨renderRegistrations_le_one _, inputRegistrations_le_one _⟩,
   ⟨renderRegistrations_le_one _, inputRegistrations_le_one _⟩,
   ⟨rfl, rfl⟩⟩

/-- Claim C9: for every scope, `set_stream_format` and `stream_format`
address the stream-format property at `Element::Output` (the element is
fixed regardless of the scope argument, which is forwarded as given), and
`set_sample_rate` / `sample_rate` always address the sample-rate property
at `(Scope::Input, Element::Output)`. -/
theorem claim_C9
    (nset : SetCall AudioStreamBasicDescription → OSStatus)
    (nget : GetCall AudioStreamBasicDescription → GetReply AudioStreamBasicDescription)
    (rset : SetCall Nat → OSStatus) (rget : GetCall Nat → GetReply Nat)
    (f : StreamFormat) (u : AudioStreamBasicDescription) (rate ur : Nat)
    (scope : Scope) :
    (AudioUnitState.set_stream_format nset f scope).1 =
        ⟨kAudioUnitProperty_StreamFormat, scope.toNat, Element.Output.toNat,
         some f.to_asbd, sizeOfASBD⟩
    ∧ (AudioUnitState.stream_format nget u scope).1 =
        ⟨kAudioUnitProperty_StreamFormat, scope.toNat, Element.Output.toNat,
         u, sizeOfASBD⟩
    ∧ (AudioUnitState.set_sample_rate rset rate).1 =
        ⟨kAudioUnitProperty_SampleRate, Scope.Input.toNat, Element.Output.toNat,
         some rate, sizeOfF64⟩
    ∧ (AudioUnitState.sample_rate rget ur).1 =
        ⟨kAudioUnitProperty_SampleRate, Scope.Input.toNat, Element.Output.toNat,
         ur, sizeOfF64⟩ :=
  ⟨rfl, rfl, rfl, rfl⟩

/-- Claim C1, counterexample: the claim says `get_property` allocates
*zeroed* storage, but the source allocates with
`MaybeUninit::<T>::uninit()` (line 395), so the storage passed to the
native getter holds arbitrary content.  Concretely, for a one-byte type
whose uninitialized storage happens to hold `7`, the native getter receives
`7` rather than `0`, and against a native getter that reports success
without writing, the returned value differs from what a zeroed allocation
would give. -/
theorem claim_C1_counterexample :
    (get_property 1 echoGetter 7 2 Scope.Input Element.Output).1.storageIn = 7
    ∧ (get_property 1 echoGetter 7 2 Scope.Input Element.Output).2 = .ok 7
    ∧ (get_property 1 echoGetter 0 2 Scope.Input Element.Output).2 = .ok 0
    ∧ (get_property 1 echoGetter 7 2 Scope.Input Element.Output).2 ≠
        (get_property 1 echoGetter 0 2 Scope.Input Element.Output).2 := by
  refine ⟨rfl, rfl, rfl, ?_⟩
  intro hcontra
  have h : (Except.ok 7 : Except Error Nat) = Except.ok 0 := hcontra
  injection h with h7
  exact (by decide : (7 : Nat) ≠ 0) h7

/-- Claim C1, amended: for every type `T` and every (id, scope, element)
triple, `get_property<T>` allocates *uninitialized* storage sized exactly
to `size_of::<T>` (the storage content at the native call is the arbitrary
value the allocation happened to hold), passes it to the native getter
together with an in/out size parameter initialized to `size_of::<T>`, fails
with a typed error when the native call reports a non-zero status, and
otherwise returns the value read into that storage. -/
theorem claim_C1_amended {α : Type} (sizeOfT : Nat) (native : GetCall α → GetReply α)
    (uninitStorage : α) (id : Nat) (scope : Scope) (elem : Element) :
    (get_property sizeOfT native uninitStorage id scope elem).1 =
      ⟨id, scope.toNat, elem.toNat, uninitStorage, sizeOfT⟩
    ∧ ((native ⟨id, scope.toNat, elem.toNat, uninitStorage, sizeOfT⟩).status ≠ 0 →
        (get_property sizeOfT native uninitStorage id scope elem).2 =
          .error (.Native (native ⟨id, scope.toNat, elem.toNat, uninitStorage, sizeOfT⟩).status))
    ∧ ((native ⟨id, scope.toNat, elem.toNat, uninitStorage, sizeOfT⟩).status = 0 →
        (get_property sizeOfT native uninitStorage id scope elem).2 =
          .ok (native ⟨id, scope.toNat, elem.toNat, uninitStorage, sizeOfT⟩).written) := by
  refine ⟨rfl, ?_, ?_⟩ <;> intro h <;>
    simp [get_property, Error.from_os_status, Except.map, h]

/-- Witness for the amended C1 at a concrete successful native getter: the
in/out size starts at `8` and the value the getter writes is returned. -/
theorem claim_C1_witness :
    (get_property 8 (fun c => ⟨0, c.sizeIn, 8⟩) 3 2 Scope.Input Element.Output).2 =
      .ok 8 :=
  (claim_C1_amended 8 (fun c => ⟨0, c.sizeIn, 8⟩) 3 2 Scope.Input Element.Output).2.2 rfl

/-- The `AudioComponentDescription` that `new_with_flags` builds for a type
whose subtype mapping is `sub`: category code, subtype, the Apple
manufacturer identifier, and the given flags and mask. -/
def descOf (ty : AUType) (sub flags mask : Nat) : AudioComponentDescription :=
  ⟨ty.as_u32, sub, kAudioUnitManufacturer_Apple, flags, mask⟩

/-- Claim C5: for a type with a native subtype mapping, construction builds
the component description from the (category, subtype, manufacturer)
triple and asks discovery for a matching component; it fails with
`NoMatchingDefaultAudioUnitFound` when discovery returns null, with the
wrapped native status when instantiation or initialization reports a
non-zero status, and only when all steps succeed returns the façade state
carrying the new instance and no registered callbacks. -/
theorem claim_C5 (env : NewEnv) (ty : AUType) (flags mask sub : Nat)
    (h : ty.as_subtype_u32 = some sub) :
    (env.findNext (descOf ty sub flags mask) = none →
      new_with_flags env ty flags mask =
        ([NewCall.findNext (descOf ty sub flags mask)],
         .error .NoMatchingDefaultAudioUnitFound))
    ∧ (∀ comp, env.findNext (descOf ty sub flags mask) = some comp →
        (env.instanceNewStatus comp ≠ 0 →
          new_with_flags env ty flags mask =
            ([NewCall.findNext (descOf ty sub flags mask), NewCall.instanceNew comp],
             .error (.Native (env.instanceNewStatus comp))))
        ∧ (env.instanceNewStatus comp = 0 →
            (env.unitInitStatus (env.instanceNewHandle comp) ≠ 0 →
              new_with_flags env ty flags mask =
                ([NewCall.findNext (descOf ty sub flags mask),
                  NewCall.instanceNew comp,
                  NewCall.unitInit (env.instanceNewHandle comp)],
                 .error (.Native (env.unitInitStatus (env.instanceNewHandle comp)))))
            ∧ (env.unitInitStatus (env.instanceNewHandle comp) = 0 →
                new_with_flags env ty flags mask =
                  ([NewCall.findNext (descOf ty sub flags mask),
                    NewCall.instanceNew comp,
                    NewCall.unitInit (env.instanceNewHandle comp)],
                   .ok ⟨env.instanceNewHandle comp, none, none⟩)))) := by
  constructor
  · intro hf
    simp only [descOf] at hf
    simp [new_with_flags, descOf, h, hf]
  · intro comp hf
    simp only [descOf] at hf
    constructor
    · intro hs
      simp [new_with_flags, descOf, h, hf, Error.from_os_status, hs]
    · intro hs
      constructor <;> intro hu <;>
        simp [new_with_flags, descOf, h, hf, Error.from_os_status, hs, hu]

/-- Witness for C5 at a concrete fully succeeding environment: discovery
finds component `7`, instantiation writes handle `42`, all statuses are
`0`, and the result is the façade state for `42` with no callbacks. -/
theorem claim_C5_witness :
    new_with_flags envAllOk (AUType.mapped 10 20) 1 2 =
      ([NewCall.findNext (descOf (AUType.mapped 10 20) 20 1 2),
        NewCall.instanceNew 7, NewCall.unitInit 42],
       .ok ⟨42, none, none⟩) :=
  (((claim_C5 envAllOk (AUType.mapped 10 20) 1 2 20 rfl).2 7 rfl).2 rfl).2 rfl

/-- Claim C6: `set_property<T>` with a present value passes the value
(its address) and exactly `size_of::<T>()` bytes to the native setter, and
with an absent value passes the null data pointer and size zero; in both
cases a non-zero native status is surfaced as a typed error and a zero
status yields success. -/
theorem claim_C6 {α : Type} (sizeOfT : Nat) (native : SetCall α → OSStatus)
    (id : Nat) (scope : Scope) (elem : Element) (v : α) (maybe_data : Option α) :
    (set_property sizeOfT native (some v) id scope elem).1 =
      ⟨id, scope.toNat, elem.toNat, some v, sizeOfT⟩
    ∧ (set_property sizeOfT native none id scope elem).1 =
      ⟨id, scope.toNat, elem.toNat, none, 0⟩
    ∧ (native (set_property sizeOfT native maybe_data id scope elem).1 ≠ 0 →
        (set_property sizeOfT native maybe_data id scope elem).2 =
          .error (.Native (native (set_property sizeOfT native maybe_data id scope elem).1)))
    ∧ (native (set_property sizeOfT native maybe_data id scope elem).1 = 0 →
        (set_property sizeOfT native maybe_data id scope elem).2 = .ok ()) := by
  refine ⟨rfl, rfl, ?_, ?_⟩ <;> intro h <;>
    simp only [set_property] at h ⊢ <;>
    simp [Error.from_os_status, h]

/-- Witness for C6 at a concrete always-succeeding native setter and the
value `99` of a 4-byte type. -/
theorem claim_C6_witness :
    (set_property 4 (fun _ => (0 : OSStatus)) (some (99 : Nat)) 3 Scope.Global
      Element.Output).2 = .ok () :=
  (claim_C6 4 (fun _ => (0 : OSStatus)) 3 Scope.Global Element.Output 99
    (some 99)).2.2.2 rfl

/-- Claim C7: clearing a property (`set_property` with no data) through the
wrapper fails (with the native layer's non-zero status surfaced as a typed
error) for a property cell that does not define a default, and for a cell
that does define a default it succeeds and a subsequent `get_property` at
the same coordinates returns that default value. -/
theorem claim_C7 (errCode : OSStatus) (cell : PropCell) (id : Nat)
    (scope : Scope) (elem : Element) (hne : errCode ≠ 0) :
    (cell.hasDefault = false →
      (clear_then_get errCode cell id scope elem).1 = .error (.Native errCode))
    ∧ (cell.hasDefault = true →
        (clear_then_get errCode cell id scope elem).1 = .ok ()
        ∧ (clear_then_get errCode cell id scope elem).2 = .ok cell.defaultVal) := by
  constructor <;> intro hd <;>
    simp [clear_then_get, set_property, get_property, nativeSetCell, nativeGetCell,
      Error.from_os_status, Except.map, hd, hne]

/-- Witness for C7 at concrete cells: clearing a default-less cell surfaces
the native error `-1`, and clearing a cell whose default is `[9, 9]` makes
the subsequent read return `[9, 9]`. -/
theorem claim_C7_witness :
    (clear_then_get (-1) ⟨false, [], [5]⟩ 3 Scope.Global Element.Output).1 =
      .error (.Native (-1))
    ∧ (clear_then_get (-1) ⟨true, [9, 9], [5]⟩ 3 Scope.Global Element.Output).2 =
      .ok [9, 9] :=
  ⟨(claim_C7 (-1) ⟨false, [], [5]⟩ 3 Scope.Global Element.Output (by decide)).1 rfl,
   ((claim_C7 (-1) ⟨true, [9, 9], [5]⟩ 3 Scope.Global Element.Output (by decide)).2 rfl).2⟩

/-- Claim C10: the flag-less constructor `new` returns exactly the same
result (same native call trace, same outcome) as `new_with_flags` with
flags `0` and mask `0`, for every environment and every requested type. -/
theorem claim_C10 (env : NewEnv) (ty : AUType) :
    new env ty = new_with_flags env ty 0 0 :=
  rfl

end CoreAudio
